import Mathlib

/-!
Shallow embedding of the MCP Auth authorization core (`src/mcp-auth.ts` of
lokicms-plugin-mcp-auth) in Lean 4, together with theorems settling the
spec claims about role resolution, permission evaluation and tool filtering.

Modelling conventions:
- JavaScript string-keyed objects (`config.roles`, `config.apiKeyMap`, the
  tool collections) are modelled as insertion-ordered association lists
  `List (String × α)`; `Object.entries` iteration is list iteration and
  indexing `obj[k]` is first-match `lookup`.
- `process.env` is modelled as `Env := String → Option String`
  (`none` = variable unset).
- JavaScript truthiness on a `string | undefined` value (`if (x)`,
  `x || y`) is captured by `truthyVal` / `jsOr`: both `undefined` and the
  empty string are falsy.
- The `tools: string[] | '*'` union is the tagged type `ToolsSpec`.
- A thrown `TypeError` (the only abnormal exit reachable in the core, via
  the unchecked `!` dereference in `getAgentInfo`) is modelled by an
  `Option` result, `none` standing for the throw.
- The mutators `registerRole` / `mapApiKey` are modelled functionally as
  state transformers on `Config` (JS key assignment: overwrite in place if
  the key exists, else append). All other operations perform no writes in
  the source, so they are embedded as plain functions of `Config`.
-/

namespace MCPAuth

/-- Access level of a role: the `'full' | 'limited'` union in `types.ts`. -/
inductive AccessLevel where
  | full
  | limited
deriving DecidableEq, Repr

/-- The `tools: string[] | '*'` field of a role: either the wildcard `'*'`
or an explicit list of tool names. -/
inductive ToolsSpec where
  | wildcard
  | explicitList (ts : List String)
deriving DecidableEq, Repr

/-- RoleConfig from `types.ts`: display name, description, access level,
permitted tools, and the optional documented blocked-tools list. -/
structure RoleConfig where
  name : String
  description : String
  accessLevel : AccessLevel
  tools : ToolsSpec
  blockedTools : Option (List String)
deriving DecidableEq, Repr

/-- The merged configuration held by a `createMCPAuth` instance
(`Required<MCPAuthConfig>`): role map, default role key, API-key prefix
map, known-tools universe, and the two ambient variable names. -/
structure Config where
  roles : List (String × RoleConfig)
  defaultRole : String
  apiKeyMap : List (String × String)
  knownTools : List String
  roleEnvVar : String
  apiKeyEnvVar : String
deriving DecidableEq, Repr

/-- Ambient environment (`process.env`): `none` models an unset variable. -/
def Env : Type := String → Option String

/-- AuthResult from `types.ts` (`error` is the optional field). -/
structure AuthResult where
  authenticated : Bool
  role : Option String
  userId : Option String
  error : Option String
deriving DecidableEq, Repr

/-- ToolFilter from `types.ts`. -/
structure ToolFilter where
  allowedTools : List String
  blockedTools : List String
  role : String
  userId : String
deriving DecidableEq, Repr

/-- RoleInfo from `types.ts`. -/
structure RoleInfo where
  key : String
  name : String
  description : String
  accessLevel : AccessLevel
  toolCount : Nat
deriving DecidableEq, Repr

/-- AgentInfo from `types.ts`. -/
structure AgentInfo where
  role : String
  name : String
  description : String
  allowedToolCount : Nat
  blockedToolCount : Nat
deriving DecidableEq, Repr

/-- First-match lookup in an association list: JS `obj[key]` on a
string-keyed object (`undefined` becomes `none`). -/
def lookup {α : Type} : List (String × α) → String → Option α
  | [], _ => none
  | (k, v) :: rest, key => if k = key then some v else lookup rest key

/-- JS key assignment `obj[key] = v`: overwrite in place when the key is
already present (keeping its position), otherwise append at the end. -/
def setEntry {α : Type} : List (String × α) → String → α → List (String × α)
  | [], key, v => [(key, v)]
  | (k, w) :: rest, key, v =>
      if k = key then (key, v) :: rest else (k, w) :: setEntry rest key v

/-- JS truthiness of a `string | undefined` value: `undefined` and the
empty string are falsy; a truthy value is returned unchanged. -/
def truthyVal : Option String → Option String
  | none => none
  | some s => if s = "" then none else some s

/-- JS `x || y` for `x : string | undefined | null` with a string fallback. -/
def jsOr (v : Option String) (fallback : String) : String :=
  match truthyVal v with
  | some s => s
  | none => fallback

/-- JS `s.startsWith(pfx)`: the characters of `pfx` are an initial segment
of the characters of `s`. -/
def jsStartsWith (s pfx : String) : Bool :=
  pfx.data.isPrefixOf s.data

/-- The `for (const [keyPrefix, role] of Object.entries(config.apiKeyMap))`
loop in `getRoleFromApiKey`: first entry whose key is a literal prefix of
the full credential, in iteration order. -/
def scanApiKeyMap : List (String × String) → String → Option String
  | [], _ => none
  | (keyPfx, role) :: rest, apiKey =>
      if jsStartsWith apiKey keyPfx then some role else scanApiKeyMap rest apiKey

/-- getRoleFromApiKey (mcp-auth.ts lines 53-69): truthy exact lookup of the
first-14-character prefix, else linear scan over the registered prefixes,
else the configured default role. -/
def getRoleFromApiKey (cfg : Config) (apiKey : String) : String :=
  let pfx := apiKey.take 14
  match truthyVal (lookup cfg.apiKeyMap pfx) with
  | some role => role
  | none =>
      match scanApiKeyMap cfg.apiKeyMap apiKey with
      | some role => role
      | none => cfg.defaultRole

/-- The shared tail of `getRoleFromEnv` (lines 41-47): read the API-key
ambient variable; if truthy derive a role from it, else the default role. -/
def roleFromKeyVar (cfg : Config) (env : Env) : String :=
  match truthyVal (env cfg.apiKeyEnvVar) with
  | some apiKey => getRoleFromApiKey cfg apiKey
  | none => cfg.defaultRole

/-- getRoleFromEnv (lines 33-48): return the direct role claim when it is
truthy and registered, else fall through to the API-key / default tail. -/
def getRoleFromEnv (cfg : Config) (env : Env) : String :=
  match truthyVal (env cfg.roleEnvVar) with
  | some directRole =>
      if (lookup cfg.roles directRole).isSome then directRole
      else roleFromKeyVar cfg env
  | none => roleFromKeyVar cfg env

/-- authenticateAgent (lines 74-92). -/
def authenticateAgent (cfg : Config) (env : Env) : AuthResult :=
  let role := getRoleFromEnv cfg env
  let apiKey := env cfg.apiKeyEnvVar
  match lookup cfg.roles role with
  | none =>
      { authenticated := false
        role := none
        userId := none
        error := some ("Unknown role: " ++ role) }
  | some _ =>
      { authenticated := true
        role := some role
        userId := some (match truthyVal apiKey with
          | some k => "api-key:" ++ k.take 14
          | none => "env-role")
        error := none }

/-- getAllowedTools (lines 97-108). -/
def getAllowedTools (cfg : Config) (role : String) : List String :=
  match lookup cfg.roles role with
  | none => []
  | some rc =>
      match rc.tools with
      | ToolsSpec.wildcard => cfg.knownTools
      | ToolsSpec.explicitList ts => ts

/-- getBlockedTools (lines 113-120): `roleConfig.blockedTools || []` (an
array, even empty, is truthy, so only an absent field falls back). -/
def getBlockedTools (cfg : Config) (role : String) : List String :=
  match lookup cfg.roles role with
  | none => []
  | some rc =>
      match rc.tools with
      | ToolsSpec.wildcard => []
      | ToolsSpec.explicitList _ =>
          match rc.blockedTools with
          | some bs => bs
          | none => []

/-- isToolAllowed (lines 125-138): `role || getRoleFromEnv()` then lookup. -/
def isToolAllowed (cfg : Config) (env : Env) (toolName : String)
    (role : Option String) : Bool :=
  let currentRole := jsOr role (getRoleFromEnv cfg env)
  match lookup cfg.roles currentRole with
  | none => false
  | some rc =>
      match rc.tools with
      | ToolsSpec.wildcard => true
      | ToolsSpec.explicitList ts => ts.contains toolName

/-- filterTools (lines 143-168): unregistered role gives the empty object,
wildcard returns the input collection itself, an explicit set keeps the
entries whose key is allowed, in the input iteration order. -/
def filterTools {T : Type} (cfg : Config) (env : Env)
    (tools : List (String × T)) (role : Option String) : List (String × T) :=
  let currentRole := jsOr role (getRoleFromEnv cfg env)
  match lookup cfg.roles currentRole with
  | none => []
  | some rc =>
      match rc.tools with
      | ToolsSpec.wildcard => tools
      | ToolsSpec.explicitList ts =>
          tools.filter (fun p => ts.contains p.1)

/-- getToolFilter (lines 173-183). -/
def getToolFilter (cfg : Config) (env : Env) : ToolFilter :=
  let auth := authenticateAgent cfg env
  let role := jsOr auth.role cfg.defaultRole
  { allowedTools := getAllowedTools cfg role
    blockedTools := getBlockedTools cfg role
    role := role
    userId := jsOr auth.userId "anonymous" }

/-- getRoles (lines 188-199). -/
def getRoles (cfg : Config) : List RoleInfo :=
  cfg.roles.map (fun p =>
    { key := p.1
      name := p.2.name
      description := p.2.description
      accessLevel := p.2.accessLevel
      toolCount :=
        match p.2.tools with
        | ToolsSpec.wildcard => cfg.knownTools.length
        | ToolsSpec.explicitList ts => ts.length })

/-- getAgentInfo (lines 204-217): `config.roles[role] ||
config.roles[config.defaultRole]!` followed by unconditional field access.
When both lookups miss, the JS code dereferences `undefined` and throws a
TypeError; that abnormal exit is the `none` result here. -/
def getAgentInfo (cfg : Config) (env : Env) : Option AgentInfo :=
  let role := getRoleFromEnv cfg env
  match (lookup cfg.roles role).orElse (fun _ => lookup cfg.roles cfg.defaultRole) with
  | none => none
  | some rc =>
      some { role := role
             name := rc.name
             description := rc.description
             allowedToolCount := (getAllowedTools cfg role).length
             blockedToolCount := (getBlockedTools cfg role).length }

/-- registerRole (lines 222-224): `config.roles[key] = roleConfig`. -/
def registerRole (cfg : Config) (key : String) (rc : RoleConfig) : Config :=
  { cfg with roles := setEntry cfg.roles key rc }

/-- mapApiKey (lines 229-231): `config.apiKeyMap[prefix] = role`. -/
def mapApiKey (cfg : Config) (pfx : String) (role : String) : Config :=
  { cfg with apiKeyMap := setEntry cfg.apiKeyMap pfx role }

/-! ### Shared helper lemmas -/

theorem jsOr_some_of_ne (r : String) (h : r ≠ "") (fb : String) :
    jsOr (some r) fb = r := by
  simp [jsOr, truthyVal, h]

theorem truthyVal_some_of_ne (r : String) (h : r ≠ "") :
    truthyVal (some r) = some r := by
  simp [truthyVal, h]

/-- The linear scan is exactly a first-match search over the map entries in
iteration order. -/
theorem scanApiKeyMap_eq_find (l : List (String × String)) (k : String) :
    scanApiKeyMap l k = (l.find? (fun p => jsStartsWith k p.1)).map Prod.snd := by
  induction l with
  | nil => rfl
  | cons hd tl ih =>
      by_cases hm : jsStartsWith k hd.1
      · simp [scanApiKeyMap, List.find?, hm]
      · simpa [scanApiKeyMap, List.find?, hm] using ih

/-! ### Sample configurations and environments used by the concrete
counterexamples and witnesses below -/

/-- Wildcard admin role definition. -/
def rcAdmin : RoleConfig :=
  ⟨"Administrator", "Full access", AccessLevel.full, ToolsSpec.wildcard, none⟩

/-- Explicit-set role permitting only `t1`, with a documented blocked list. -/
def rcT1 : RoleConfig :=
  ⟨"T1 only", "Can use t1", AccessLevel.limited, ToolsSpec.explicitList ["t1"],
    some ["t9"]⟩

/-- Ambient state with no variables set. -/
def envEmpty : Env := fun _ => none

/-- Ambient state with the role variable set to `admin`. -/
def envRoleAdmin : Env := fun v => if v = "AGENT_ROLE" then some "admin" else none

/-! ### Claim C3: isAllowed(role, operation) -/

/-- Store for the C3 counterexample: a wildcard `admin` role plus a role
registered under the empty-string key with explicit permitted set `[t1]`. -/
def cfgC3 : Config :=
  ⟨[("admin", rcAdmin), ("", rcT1)], "viewer", [], [], "AGENT_ROLE", "AGENT_API_KEY"⟩

/-- Claim C3 as stated is false: the empty string is a registered role key
with explicit permitted set `[t1]`, and `t2` is not in that set, yet
`isToolAllowed` with explicit role argument `""` returns `true`, because the
JS `role || getRoleFromEnv()` defaulting treats the empty string as absent
and resolves the ambient role variable (`admin`, a wildcard role) instead. -/
theorem claim_C3_counterexample :
    lookup cfgC3.roles "" = some rcT1 ∧
    rcT1.tools = ToolsSpec.explicitList ["t1"] ∧
    ¬ ("t2" ∈ (["t1"] : List String)) ∧
    isToolAllowed cfgC3 envRoleAdmin "t2" (some "") = true := by
  refine ⟨by decide, rfl, by simp, by decide⟩

/-- Claim C3 amended: for every Policy Store state, every NON-EMPTY role key
`r` and every operation name `x`, `isToolAllowed` with explicit role `r` is
false when `r` is unregistered, true for every `x` when the permitted set of
`r` is the wildcard, and otherwise true exactly when `x` is in the explicit
permitted set. (An empty-string role argument instead triggers ambient
resolution, per the counterexample.) -/
theorem claim_C3 (cfg : Config) (env : Env) (r : String) (h : r ≠ "")
    (x : String) :
    (lookup cfg.roles r = none → isToolAllowed cfg env x (some r) = false) ∧
    (∀ rc, lookup cfg.roles r = some rc → rc.tools = ToolsSpec.wildcard →
      isToolAllowed cfg env x (some r) = true) ∧
    (∀ rc ts, lookup cfg.roles r = some rc →
      rc.tools = ToolsSpec.explicitList ts →
      (isToolAllowed cfg env x (some r) = true ↔ x ∈ ts)) := by
  unfold isToolAllowed
  rw [jsOr_some_of_ne r h]
  refine ⟨fun hn => by simp [hn], fun rc hrc hw => by simp [hrc, hw],
    fun rc ts hrc ht => by simp [hrc, ht]⟩

/-- Witness for claim C3 at a concrete input: role `t1only` is registered
with explicit set `[t1]`, so `t1` is allowed and the hypothesis `r ≠ ""` is
discharged concretely. -/
theorem claim_C3_witness :
    isToolAllowed ⟨[("t1only", rcT1)], "viewer", [], [], "AGENT_ROLE", "AGENT_API_KEY"⟩
      envEmpty "t1" (some "t1only") = true := by
  exact (claim_C3 ⟨[("t1only", rcT1)], "viewer", [], [], "AGENT_ROLE", "AGENT_API_KEY"⟩
    envEmpty "t1only" (by decide) "t1").2.2 rcT1 ["t1"] (by decide) rfl |>.mpr (by simp)

/-! ### Claim C7: blockedOperations(role) -/

/-- Claim C7 confirmed: `getBlockedTools` is empty for an unregistered or
wildcard role, and otherwise returns exactly the author-supplied
`blockedTools` list (empty when the field is absent); the final conjunct
shows it never consults the known-operations universe, so it is not
computed as universe minus permitted set. -/
theorem claim_C7 (cfg : Config) (r : String) :
    (lookup cfg.roles r = none → getBlockedTools cfg r = []) ∧
    (∀ rc, lookup cfg.roles r = some rc → rc.tools = ToolsSpec.wildcard →
      getBlockedTools cfg r = []) ∧
    (∀ rc ts, lookup cfg.roles r = some rc →
      rc.tools = ToolsSpec.explicitList ts →
      getBlockedTools cfg r = rc.blockedTools.getD []) ∧
    (∀ ks, getBlockedTools { cfg with knownTools := ks } r = getBlockedTools cfg r) := by
  unfold getBlockedTools
  refine ⟨fun hn => by simp [hn], fun rc hrc hw => by simp [hrc, hw],
    fun rc ts hrc ht => ?_, fun ks => rfl⟩
  simp only [hrc, ht]
  cases rc.blockedTools <;> rfl

/-- Witness for claim C7 at a concrete input: the role `t1only` documents
blocked list `[t9]` and `getBlockedTools` returns exactly it. -/
theorem claim_C7_witness :
    getBlockedTools ⟨[("t1only", rcT1)], "viewer", [], ["k1"], "AGENT_ROLE", "AGENT_API_KEY"⟩
      "t1only" = ["t9"] := by
  exact (claim_C7 ⟨[("t1only", rcT1)], "viewer", [], ["k1"], "AGENT_ROLE", "AGENT_API_KEY"⟩
    "t1only").2.2.1 rcT1 ["t1"] (by decide) rfl

/-! ### Claim C8: allowedOperations(role) -/

/-- Claim C8 confirmed: `getAllowedTools` is empty for an unregistered role,
the full known-operations universe for a wildcard role, and the explicit
permitted list verbatim otherwise. -/
theorem claim_C8 (cfg : Config) (r : String) :
    (lookup cfg.roles r = none → getAllowedTools cfg r = []) ∧
    (∀ rc, lookup cfg.roles r = some rc → rc.tools = ToolsSpec.wildcard →
      getAllowedTools cfg r = cfg.knownTools) ∧
    (∀ rc ts, lookup cfg.roles r = some rc →
      rc.tools = ToolsSpec.explicitList ts → getAllowedTools cfg r = ts) := by
  unfold getAllowedTools
  refine ⟨fun hn => by simp [hn], fun rc hrc hw => by simp [hrc, hw],
    fun rc ts hrc ht => by simp [hrc, ht]⟩

/-- Witness for claim C8 at a concrete input: the wildcard `admin` role gets
the whole known-tools universe. -/
theorem claim_C8_witness :
    getAllowedTools ⟨[("admin", rcAdmin)], "viewer", [], ["k1", "k2"], "AGENT_ROLE", "AGENT_API_KEY"⟩
      "admin" = ["k1", "k2"] := by
  exact (claim_C8 ⟨[("admin", rcAdmin)], "viewer", [], ["k1", "k2"], "AGENT_ROLE", "AGENT_API_KEY"⟩
    "admin").2.1 rcAdmin (by decide) rfl

/-! ### Claim C6: filter(collection, role) -/

/-- Store for the C6 counterexample: wildcard `admin` plus a role registered
under the empty-string key permitting only `t1`. -/
def cfgC6 : Config :=
  ⟨[("admin", rcAdmin), ("", rcT1)], "viewer", [], [], "AGENT_ROLE", "AGENT_API_KEY"⟩

/-- Claim C6 as stated is false: the empty string is a registered role key
with explicit permitted set `[t1]`, so filtering `{t9: 0}` through it should
yield the empty collection, but the explicit empty-string role argument is
treated as absent (`role || getRoleFromEnv()`), ambient resolution picks the
wildcard `admin` role, and the whole collection is returned. -/
theorem claim_C6_counterexample :
    lookup cfgC6.roles "" = some rcT1 ∧
    rcT1.tools = ToolsSpec.explicitList ["t1"] ∧
    filterTools cfgC6 envRoleAdmin [("t9", 0)] (some "") = [("t9", 0)] := by
  refine ⟨by decide, rfl, by decide⟩

/-- Claim C6 amended: for every collection `C` and every NON-EMPTY role key
`r`, the filter is empty when `r` is unregistered, the input collection
itself when `r` is a wildcard role, and otherwise exactly the entries of `C`
whose key is in the explicit permitted set, unchanged and in `C`'s
iteration order (`List.filter`); moreover for EVERY role argument
(including `none` and the empty string) the result is a sublist of `C`, so
`keys(filter(C, r)) ⊆ keys(C)` always holds and entries are never altered.
(The embedding is functional, so the input collection is never mutated.) -/
theorem claim_C6 (cfg : Config) (env : Env) {T : Type} (C : List (String × T))
    (r : String) (h : r ≠ "") :
    (lookup cfg.roles r = none → filterTools cfg env C (some r) = []) ∧
    (∀ rc, lookup cfg.roles r = some rc → rc.tools = ToolsSpec.wildcard →
      filterTools cfg env C (some r) = C) ∧
    (∀ rc ts, lookup cfg.roles r = some rc →
      rc.tools = ToolsSpec.explicitList ts →
      filterTools cfg env C (some r) = C.filter (fun p => ts.contains p.1)) ∧
    (∀ rOpt : Option String, List.Sublist (filterTools cfg env C rOpt) C) := by
  refine ⟨?_, ?_, ?_, ?_⟩
  · intro hn
    unfold filterTools
    rw [jsOr_some_of_ne r h]
    simp [hn]
  · intro rc hrc hw
    unfold filterTools
    rw [jsOr_some_of_ne r h]
    simp [hrc, hw]
  · intro rc ts hrc ht
    unfold filterTools
    rw [jsOr_some_of_ne r h]
    simp [hrc, ht]
  · intro rOpt
    cases hl : lookup cfg.roles (jsOr rOpt (getRoleFromEnv cfg env)) with
    | none =>
        simp only [filterTools, hl]
        exact List.nil_sublist C
    | some rc =>
        cases htools : rc.tools with
        | wildcard =>
            simp only [filterTools, hl, htools]
            exact List.Sublist.refl C
        | explicitList ts =>
            simp only [filterTools, hl, htools]
            exact List.filter_sublist C

/-- Witness for claim C6 at a concrete input: filtering a two-entry
collection through the explicit-set role `t1only` keeps exactly the `t1`
entry. -/
theorem claim_C6_witness :
    filterTools ⟨[("t1only", rcT1)], "viewer", [], [], "AGENT_ROLE", "AGENT_API_KEY"⟩
      envEmpty [("t1", 0), ("t9", 1)] (some "t1only") = [("t1", 0)] := by
  have h := (claim_C6 ⟨[("t1only", rcT1)], "viewer", [], [], "AGENT_ROLE", "AGENT_API_KEY"⟩
    envEmpty [("t1", 0), ("t9", 1)] "t1only" (by decide)).2.2.1 rcT1 ["t1"] (by decide) rfl
  rw [h]
  decide

/-! ### Claim C9: idempotence of filtering -/

/-- Claim C9 confirmed: filtering is idempotent for every store, ambient
state, collection and role argument (including the absent and empty-string
arguments, since ambient resolution is repeated identically). -/
theorem claim_C9 (cfg : Config) (env : Env) {T : Type} (C : List (String × T))
    (r : Option String) :
    filterTools cfg env (filterTools cfg env C r) r = filterTools cfg env C r := by
  cases hl : lookup cfg.roles (jsOr r (getRoleFromEnv cfg env)) with
  | none => simp [filterTools, hl]
  | some rc =>
      cases ht : rc.tools with
      | wildcard => simp [filterTools, hl, ht]
      | explicitList ts =>
          simp only [filterTools, hl, ht]
          rw [List.filter_filter]
          simp only [Bool.and_self]

/-- Witness for claim C9 at a concrete input (explicit-set role). -/
theorem claim_C9_witness :
    filterTools ⟨[("t1only", rcT1)], "viewer", [], [], "AGENT_ROLE", "AGENT_API_KEY"⟩
      envEmpty
      (filterTools ⟨[("t1only", rcT1)], "viewer", [], [], "AGENT_ROLE", "AGENT_API_KEY"⟩
        envEmpty [("t1", 0), ("t9", 1)] (some "t1only"))
      (some "t1only") =
    filterTools ⟨[("t1only", rcT1)], "viewer", [], [], "AGENT_ROLE", "AGENT_API_KEY"⟩
      envEmpty [("t1", 0), ("t9", 1)] (some "t1only") := by
  exact claim_C9 ⟨[("t1only", rcT1)], "viewer", [], [], "AGENT_ROLE", "AGENT_API_KEY"⟩
    envEmpty [("t1", 0), ("t9", 1)] (some "t1only")

/-! ### Claim C4: credential-prefix derivation -/

/-- Prefix map for the C4 counterexample: `a` maps to `roleB` and the
14-character prefix `abcdefghijklmn` maps to the empty-string role name. -/
def cfgC4 : Config :=
  ⟨[], "viewer", [("a", "roleB"), ("abcdefghijklmn", "")], [],
    "AGENT_ROLE", "AGENT_API_KEY"⟩

/-- Claim C4 as stated is false: an exact mapping for the credential's
first-14-character prefix is registered (it maps to the empty string), yet
`getRoleFromApiKey` does not return that mapped role — the JS truthiness
test `if (config.apiKeyMap[prefix])` skips an exact mapping whose role name
is the empty string, and the linear scan then returns `roleB` instead. -/
theorem claim_C4_counterexample :
    lookup cfgC4.apiKeyMap ("abcdefghijklmnXY".take 14) = some "" ∧
    getRoleFromApiKey cfgC4 "abcdefghijklmnXY" = "roleB" ∧
    getRoleFromApiKey cfgC4 "abcdefghijklmnXY" ≠ "" := by
  refine ⟨by decide, by decide, by decide⟩

/-- Claim C4 amended: `getRoleFromApiKey` returns the role mapped to the
credential's first-14-character prefix (the whole string if shorter) when an
exact mapping for that prefix is registered AND its role name is non-empty
(the code's truthiness test skips an empty role name); otherwise it returns
the role of the first registered mapping, in registration/iteration order
(`List.find?`), whose prefix is a literal prefix of the full credential;
otherwise the configured default role key. -/
theorem claim_C4 (cfg : Config) (c : String) :
    (∀ r, lookup cfg.apiKeyMap (c.take 14) = some r → r ≠ "" →
      getRoleFromApiKey cfg c = r) ∧
    (truthyVal (lookup cfg.apiKeyMap (c.take 14)) = none →
      (∀ pr, cfg.apiKeyMap.find? (fun q => jsStartsWith c q.1) = some pr →
        getRoleFromApiKey cfg c = pr.2) ∧
      (cfg.apiKeyMap.find? (fun q => jsStartsWith c q.1) = none →
        getRoleFromApiKey cfg c = cfg.defaultRole)) := by
  constructor
  · intro r hr hne
    simp only [getRoleFromApiKey, hr, truthyVal_some_of_ne r hne]
  · intro hmiss
    constructor
    · intro pr hpr
      simp only [getRoleFromApiKey, hmiss, scanApiKeyMap_eq_find, hpr]
      rfl
    · intro hnone
      simp only [getRoleFromApiKey, hmiss, scanApiKeyMap_eq_find, hnone]
      rfl

/-- Witness for claim C4 at the spec's own tie-break example: with prefixes
`ab` (to roleX) registered before `abc` (to roleY), the credential `abcdef`
misses the 14-character exact lookup and resolves to `roleX`, the first
match in iteration order. -/
theorem claim_C4_witness :
    getRoleFromApiKey
      ⟨[], "viewer", [("ab", "roleX"), ("abc", "roleY")], [], "AGENT_ROLE", "AGENT_API_KEY"⟩
      "abcdef" = "roleX" := by
  exact ((claim_C4
    ⟨[], "viewer", [("ab", "roleX"), ("abc", "roleY")], [], "AGENT_ROLE", "AGENT_API_KEY"⟩
    "abcdef").2 (by decide)).1 ("ab", "roleX") (by decide)

/-! ### Claim C5: resolveRole precedence -/

/-- Claim C5 confirmed: `getRoleFromEnv` returns the direct role claim from
the role ambient variable when it holds a usable (non-empty, JS-truthy)
value naming a registered role; otherwise, when the credential ambient
variable holds a usable value, the result of credential-prefix derivation on
it; otherwise the configured default role key — with no hypothesis that the
default role is registered, and totally (the embedding returns a `String`
for every input, mirroring the straight-line source). -/
theorem claim_C5 (cfg : Config) (env : Env) :
    (∀ dr, truthyVal (env cfg.roleEnvVar) = some dr →
      (lookup cfg.roles dr).isSome →
      getRoleFromEnv cfg env = dr) ∧
    ((∀ dr, truthyVal (env cfg.roleEnvVar) = some dr →
        (lookup cfg.roles dr).isSome = false) →
      (∀ k, truthyVal (env cfg.apiKeyEnvVar) = some k →
        getRoleFromEnv cfg env = getRoleFromApiKey cfg k) ∧
      (truthyVal (env cfg.apiKeyEnvVar) = none →
        getRoleFromEnv cfg env = cfg.defaultRole)) := by
  constructor
  · intro dr hdr hreg
    simp only [getRoleFromEnv, hdr, hreg, if_true]
  · intro hnodirect
    constructor
    · intro k hk
      cases hdr : truthyVal (env cfg.roleEnvVar) with
      | none => simp only [getRoleFromEnv, hdr, roleFromKeyVar, hk]
      | some dr =>
          simp only [getRoleFromEnv, hdr, hnodirect dr hdr, roleFromKeyVar, hk,
            Bool.false_eq_true, if_false]
    · intro hnk
      cases hdr : truthyVal (env cfg.roleEnvVar) with
      | none => simp only [getRoleFromEnv, hdr, roleFromKeyVar, hnk]
      | some dr =>
          simp only [getRoleFromEnv, hdr, hnodirect dr hdr, roleFromKeyVar, hnk,
            Bool.false_eq_true, if_false]

/-- Witness for claim C5 at a concrete input: with no ambient variables set
and the default role `viewer` NOT registered in the store, resolution still
returns `viewer`. -/
theorem claim_C5_witness :
    getRoleFromEnv ⟨[("admin", rcAdmin)], "viewer", [], [], "AGENT_ROLE", "AGENT_API_KEY"⟩
      envEmpty = "viewer" ∧
    lookup [("admin", rcAdmin)] "viewer" = none := by
  refine ⟨?_, by decide⟩
  exact ((claim_C5 ⟨[("admin", rcAdmin)], "viewer", [], [], "AGENT_ROLE", "AGENT_API_KEY"⟩
    envEmpty).2 (fun dr hdr => by simp [envEmpty, truthyVal] at hdr)).2 rfl

/-! ### Claim C2: authenticateAgent -/

/-- Store used by the C2 theorems: only the wildcard `admin` role is
registered and the default role `viewer` is not. -/
def cfgC2 : Config :=
  ⟨[("admin", rcAdmin)], "viewer", [], [], "AGENT_ROLE", "AGENT_API_KEY"⟩

/-- Ambient state with both the role variable (`admin`) and the API-key
variable set. -/
def envBoth : Env := fun v =>
  if v = "AGENT_ROLE" then some "admin"
  else if v = "AGENT_API_KEY" then some "k1234567890123456" else none

/-- Claim C2 as stated is false: the direct role claim `admin` is present
and registered, so resolution uses the direct role claim, yet the identity
field is the credential-derived tag, not the fixed `env-role` tag — the
code picks the tag by whether the API-key ambient variable is set, not by
which resolution step produced the role. -/
theorem claim_C2_counterexample :
    truthyVal (envBoth "AGENT_ROLE") = some "admin" ∧
    (lookup cfgC2.roles "admin").isSome = true ∧
    getRoleFromEnv cfgC2 envBoth = "admin" ∧
    (authenticateAgent cfgC2 envBoth).userId = some "api-key:k1234567890123" ∧
    (authenticateAgent cfgC2 envBoth).userId ≠ some "env-role" := by
  refine ⟨by decide, by decide, by decide, by decide, by decide⟩

/-- Claim C2 amended: `authenticateAgent` returns `authenticated = false`
with null role, null identity and an error string exactly when the resolved
role is not registered; otherwise `authenticated = true` with the resolved
role, and the identity is the credential tag (first 14 credential
characters, `api-key:`-tagged) whenever the credential ambient variable
holds a usable (non-empty) value — regardless of which resolution step
produced the role — and the fixed `env-role` tag when it does not. -/
theorem claim_C2 (cfg : Config) (env : Env) :
    (lookup cfg.roles (getRoleFromEnv cfg env) = none →
      authenticateAgent cfg env =
        ⟨false, none, none, some ("Unknown role: " ++ getRoleFromEnv cfg env)⟩) ∧
    (∀ rc, lookup cfg.roles (getRoleFromEnv cfg env) = some rc →
      (authenticateAgent cfg env).authenticated = true ∧
      (authenticateAgent cfg env).role = some (getRoleFromEnv cfg env) ∧
      (∀ k, truthyVal (env cfg.apiKeyEnvVar) = some k →
        (authenticateAgent cfg env).userId = some ("api-key:" ++ k.take 14)) ∧
      (truthyVal (env cfg.apiKeyEnvVar) = none →
        (authenticateAgent cfg env).userId = some "env-role") ∧
      (authenticateAgent cfg env).error = none) ∧
    ((authenticateAgent cfg env).authenticated = false ↔
      lookup cfg.roles (getRoleFromEnv cfg env) = none) := by
  refine ⟨?_, ?_, ?_⟩
  · intro hn
    simp only [authenticateAgent, hn]
  · intro rc hrc
    refine ⟨by simp only [authenticateAgent, hrc], by simp only [authenticateAgent, hrc],
      ?_, ?_, by simp only [authenticateAgent, hrc]⟩
    · intro k hk
      simp only [authenticateAgent, hrc, hk]
    · intro hnk
      simp only [authenticateAgent, hrc, hnk]
  · cases hrc : lookup cfg.roles (getRoleFromEnv cfg env) with
    | none => simp only [authenticateAgent, hrc]
    | some rc =>
        simp only [authenticateAgent, hrc]
        constructor
        · intro hfalse
          exact absurd hfalse (by simp)
        · intro hnone
          exact Option.noConfusion hnone

/-- Witness for claim C2 at a concrete input: with no ambient variables set,
resolution yields the unregistered default `viewer` and authentication fails
with the structured error. -/
theorem claim_C2_witness :
    authenticateAgent cfgC2 envEmpty =
      ⟨false, none, none, some "Unknown role: viewer"⟩ := by
  exact (claim_C2 cfgC2 envEmpty).1 (by decide)

/-! ### Claim C10: purity and determinism -/

/-- Claim C10 as stated is false for the empty-string explicit role
argument: two runs of `isToolAllowed` with identical arguments and store but
different ambient environments disagree, because `role || getRoleFromEnv()`
treats the empty string as absent and consults the ambient state. -/
theorem claim_C10_counterexample :
    isToolAllowed cfgC2 envRoleAdmin "t" (some "") = true ∧
    isToolAllowed cfgC2 envEmpty "t" (some "") = false := by
  refine ⟨by decide, by decide⟩

/-- Claim C10 amended: for a fixed store, the evaluator and filter called
with an explicit NON-EMPTY role argument are independent of the ambient
environment (`getAllowedTools`, `getBlockedTools` and `getRoleFromApiKey`
take no ambient input at all in the embedding, mirroring source functions
that never read `process.env`, and no operation other than
`registerRole`/`mapApiKey` writes the store); and resolution is
deterministic — it depends only on the values of the two designated ambient
variables, so identical ambient inputs yield the same role. -/
theorem claim_C10 (cfg : Config) (env1 env2 : Env) (r : String) (h : r ≠ "") :
    (∀ x, isToolAllowed cfg env1 x (some r) = isToolAllowed cfg env2 x (some r)) ∧
    (∀ (T : Type) (C : List (String × T)),
      filterTools cfg env1 C (some r) = filterTools cfg env2 C (some r)) ∧
    (env1 cfg.roleEnvVar = env2 cfg.roleEnvVar →
      env1 cfg.apiKeyEnvVar = env2 cfg.apiKeyEnvVar →
      getRoleFromEnv cfg env1 = getRoleFromEnv cfg env2) := by
  refine ⟨?_, ?_, ?_⟩
  · intro x
    simp only [isToolAllowed, jsOr_some_of_ne r h]
  · intro T C
    simp only [filterTools, jsOr_some_of_ne r h]
  · intro hrole hkey
    simp only [getRoleFromEnv, roleFromKeyVar, hrole, hkey]

/-- Witness for claim C10 at a concrete input: the wildcard `admin` role
argument gives the same decision under two different ambient states. -/
theorem claim_C10_witness :
    isToolAllowed cfgC2 envRoleAdmin "t" (some "admin") =
      isToolAllowed cfgC2 envEmpty "t" (some "admin") := by
  exact (claim_C10 cfgC2 envRoleAdmin envEmpty "admin" (by decide)).1 "t"

/-! ### Claim C1: totality of the public surface -/

/-- Store for the C1 failing input: the default role `ghost` is not
registered (the only registered role is `viewer`), and no ambient variables
are set, so resolution returns `ghost`. -/
def cfgC1 : Config :=
  ⟨[("viewer", rcT1)], "ghost", [], [], "AGENT_ROLE", "AGENT_API_KEY"⟩

/-- Claim C1 fails on the code (code bug): at this configuration the
resolved role (`ghost`, the configured default) and the default role are
both unregistered, so `config.roles[role] || config.roles[config.defaultRole]!`
in `getAgentInfo` evaluates to `undefined` and the subsequent
`roleConfig.name` access throws a TypeError — modelled here by the `none`
result — contradicting the spec's guarantee that no input ever causes a
crash and that the summary always has a name and description. All other
public operations are embedded as total functions, matching their
straight-line sources. -/
theorem claim_C1_crash :
    getRoleFromEnv cfgC1 envEmpty = "ghost" ∧
    lookup cfgC1.roles "ghost" = none ∧
    lookup cfgC1.roles cfgC1.defaultRole = none ∧
    getAgentInfo cfgC1 envEmpty = none := by
  refine ⟨by decide, by decide, by decide, by decide⟩

end MCPAuth
